import Mathlib

/-!
Shallow embedding of the themecn palette-derivation engine (the zustand
theme store in the source) and proofs about its seed-propagation rules,
chart-series generator, preset selection, hex dispatch and shareable-link
encoder.

Colors are HSL triples; the source serializes them as "H S% L%" strings and
re-parses components with parseFloat/parseInt at each use site.  The
embedding keeps the numeric content (ℚ components, matching JS number
arithmetic on these magnitudes exactly) and models the string round-trip as
the identity, except where the source uses Number.parseInt, which is
modelled by explicit truncation (jsParseInt).

The color-utils module (hexToHSL, hslToHex, calculateContrastingColor,
getContrastHSL) is imported by the store but is not among the provided
sources; those four functions are modelled from the spec and marked as
such.  Hex input at the API boundary is represented by the HSL triple that
hexToHSL produces from it.
-/

namespace Themecn

/-- An HSL color: hue, saturation (percent), lightness (percent).  The
source stores this as the string "H S% L%". -/
structure HSL where
  h : ℚ
  s : ℚ
  l : ℚ
deriving DecidableEq, Repr

/-- JS `Number.parseInt` applied to the serialized form of a component:
truncation toward zero. -/
def jsParseInt (q : ℚ) : ℤ :=
  if 0 ≤ q then ⌊q⌋ else ⌈q⌉

theorem jsParseInt_intCast (n : ℤ) : jsParseInt (n : ℚ) = n := by
  unfold jsParseInt
  split <;> simp

/-- The full palette: the fixed closed set of semantic role keys of the
`ThemeColors` record in the source. -/
structure ThemeColors where
  background : HSL
  foreground : HSL
  card : HSL
  cardForeground : HSL
  popover : HSL
  popoverForeground : HSL
  primary : HSL
  primaryForeground : HSL
  secondary : HSL
  secondaryForeground : HSL
  muted : HSL
  mutedForeground : HSL
  accent : HSL
  accentForeground : HSL
  destructive : HSL
  border : HSL
  input : HSL
  ring : HSL
  chart1 : HSL
  chart2 : HSL
  chart3 : HSL
  chart4 : HSL
  chart5 : HSL
  sidebar : HSL
  sidebarForeground : HSL
  sidebarPrimary : HSL
  sidebarPrimaryForeground : HSL
  sidebarAccent : HSL
  sidebarAccentForeground : HSL
  sidebarBorder : HSL
  sidebarRing : HSL
deriving DecidableEq, Repr

/-- The role keys (`ThemeColorKey` in the source): one per palette field. -/
inductive ThemeColorKey where
  | background | foreground | card | cardForeground | popover | popoverForeground
  | primary | primaryForeground | secondary | secondaryForeground
  | muted | mutedForeground | accent | accentForeground | destructive
  | border | input | ring
  | chart1 | chart2 | chart3 | chart4 | chart5
  | sidebar | sidebarForeground | sidebarPrimary | sidebarPrimaryForeground
  | sidebarAccent | sidebarAccentForeground | sidebarBorder | sidebarRing
deriving DecidableEq, Repr

/-- Dynamic field write `colors[key] = value` used in the final catch-all
branch of `updateThemeColor`. -/
def ThemeColors.setField (c : ThemeColors) (key : ThemeColorKey) (v : HSL) : ThemeColors :=
  match key with
  | .background => { c with background := v }
  | .foreground => { c with foreground := v }
  | .card => { c with card := v }
  | .cardForeground => { c with cardForeground := v }
  | .popover => { c with popover := v }
  | .popoverForeground => { c with popoverForeground := v }
  | .primary => { c with primary := v }
  | .primaryForeground => { c with primaryForeground := v }
  | .secondary => { c with secondary := v }
  | .secondaryForeground => { c with secondaryForeground := v }
  | .muted => { c with muted := v }
  | .mutedForeground => { c with mutedForeground := v }
  | .accent => { c with accent := v }
  | .accentForeground => { c with accentForeground := v }
  | .destructive => { c with destructive := v }
  | .border => { c with border := v }
  | .input => { c with input := v }
  | .ring => { c with ring := v }
  | .chart1 => { c with chart1 := v }
  | .chart2 => { c with chart2 := v }
  | .chart3 => { c with chart3 := v }
  | .chart4 => { c with chart4 := v }
  | .chart5 => { c with chart5 := v }
  | .sidebar => { c with sidebar := v }
  | .sidebarForeground => { c with sidebarForeground := v }
  | .sidebarPrimary => { c with sidebarPrimary := v }
  | .sidebarPrimaryForeground => { c with sidebarPrimaryForeground := v }
  | .sidebarAccent => { c with sidebarAccent := v }
  | .sidebarAccentForeground => { c with sidebarAccentForeground := v }
  | .sidebarBorder => { c with sidebarBorder := v }
  | .sidebarRing => { c with sidebarRing := v }

/-- Role tag for the Contrast Resolver (`calculateContrastingColor`'s
optional second argument in the source). -/
inductive ContrastRole where
  | normal
  | mutedForeground
deriving DecidableEq, Repr

/-- Modelled from the spec: the Contrast Resolver
(`calculateContrastingColor` from the color-utils module, which is not
among the provided sources).  Per §4.2: compute the input's lightness; if
below a legibility threshold (~45–50 on the 0–100 scale) return a light
foreground tuned to the same hue (low saturation, high lightness — hue,
10%, 95%); otherwise a dark foreground (same hue, low saturation, low
lightness).  The "mutedForeground" role uses a softer mid-saturation,
mid-lightness contrast.  Pure and total. -/
def calculateContrastingColor (c : HSL) (role : ContrastRole := .normal) : HSL :=
  match role with
  | .mutedForeground =>
      if c.l < 48 then ⟨c.h, 15, 65⟩ else ⟨c.h, 30, 45⟩
  | .normal =>
      if c.l < 48 then ⟨c.h, 10, 95⟩ else ⟨c.h, 10, 10⟩

/-- Modelled from the spec: `getContrastHSL` from the missing color-utils
module, used to recompute the other palette's foreground against a newly
edited foreground (§4.4: cross-mode contrast linkage, not copied
verbatim). -/
def getContrastHSL (c : HSL) : HSL :=
  if c.l < 48 then ⟨c.h, 10, 95⟩ else ⟨c.h, 10, 10⟩

/-- The 5-color monochromatic chart ramp returned by
`generateChartColors`. -/
structure ChartColors where
  chart1 : HSL
  chart2 : HSL
  chart3 : HSL
  chart4 : HSL
  chart5 : HSL
deriving DecidableEq, Repr

/-- `generateChartColors` from the source: a monochromatic ramp anchored at
the primary's hue; secondary and accent are accepted but unused.  Distinct
clamping rules for light vs dark mode. -/
def generateChartColors (primary _secondary _accent : HSL)
    (isDarkMode : Bool := false) : ChartColors :=
  let primaryH := primary.h
  let primaryS := primary.s
  let primaryL := primary.l
  if isDarkMode then
    { chart1 := primary
      chart2 := ⟨primaryH, min (primaryS + 5) 90, min (primaryL + 15) 70⟩
      chart3 := ⟨primaryH, min (primaryS + 10) 95, min (primaryL + 25) 80⟩
      chart4 := ⟨primaryH, max (primaryS - 10) 40, max (primaryL - 15) 30⟩
      chart5 := ⟨primaryH, max (primaryS - 20) 30, max (primaryL - 25) 20⟩ }
  else
    { chart1 := primary
      chart2 := ⟨primaryH, max (primaryS - 15) 30, min (primaryL + 15) 75⟩
      chart3 := ⟨primaryH, max (primaryS - 30) 20, min (primaryL + 25) 85⟩
      chart4 := ⟨primaryH, min (primaryS + 10) 90, max (primaryL - 15) 25⟩
      chart5 := ⟨primaryH, min (primaryS + 5) 85, max (primaryL - 25) 20⟩ }

/-- Font pair of the theme state. -/
structure Fonts where
  heading : String
  body : String
deriving DecidableEq, Repr

/-- Partial hex palette of a preset (`ThemePreset["colors"]`).  The source
stores hex strings and converts each through `hexToHSL` (from the missing
color-utils module) on application; the embedding represents each preset
color directly by the HSL triple that conversion yields. -/
structure PresetColors where
  background : Option HSL := none
  foreground : Option HSL := none
  primary : Option HSL := none
  secondary : Option HSL := none
  accent : Option HSL := none
  chart1 : Option HSL := none
  chart2 : Option HSL := none
  chart3 : Option HSL := none
  chart4 : Option HSL := none
  chart5 : Option HSL := none
deriving DecidableEq, Repr

/-- Optional font pair of a preset. -/
structure PresetFonts where
  heading : Option String := none
  body : Option String := none
deriving DecidableEq, Repr

/-- A named preset (`ThemePreset` in the source). -/
structure ThemePreset where
  name : String
  colors : Option PresetColors := none
  fonts : Option PresetFonts := none
  borderRadius : Option ℚ := none
deriving DecidableEq, Repr

/-- The full theme state (`ThemeState` in the source). -/
structure ThemeState where
  colors : ThemeColors
  darkColors : ThemeColors
  fonts : Fonts
  borderRadius : ℚ
  isDarkMode : Bool
  selectedHarmony : String
  exportMenuOpen : Bool
  shareMenuOpen : Bool
  predefinedThemes : List ThemePreset
  currentTheme : String
deriving DecidableEq, Repr

/-- The `key === "primary" && isDarkMode` branch of `updateThemeColor`:
full independent re-derivation of the dark palette from the new primary.
The source re-parses the HSL string with `Number.parseInt`, modelled by
`jsParseInt`; `(h + 30) % 360` uses the JS truncated remainder
(`Int.tmod`). -/
def updatePrimaryDark (hslValue : HSL) (state : ThemeState) : ThemeState :=
  let h := jsParseInt hslValue.h
  let s := jsParseInt hslValue.s
  let l := jsParseInt hslValue.l
  let isPrimaryDark := l < 40
  let primaryForeground : HSL :=
    if isPrimaryDark then ⟨0, 0, 100⟩ else ⟨(h : ℚ), 10, 95⟩
  let darkSecondaryH := h
  let darkSecondaryS := max (min (s - 40) 30) 7
  let darkSecondaryL := max (min (l - 20) 30) 15
  let darkSecondaryHSLValue : HSL :=
    ⟨(darkSecondaryH : ℚ), (darkSecondaryS : ℚ), (darkSecondaryL : ℚ)⟩
  let darkAccentH := (h + 30).tmod 360
  let darkAccentS := min (s + 5) 80
  let darkAccentL := min (l + 15) 65
  let darkAccentHSLValue : HSL :=
    ⟨(darkAccentH : ℚ), (darkAccentS : ℚ), (darkAccentL : ℚ)⟩
  let border : HSL :=
    ⟨(darkSecondaryH : ℚ), ((darkSecondaryS + 5 : ℤ) : ℚ),
      ((min (darkSecondaryL + 10) 30 : ℤ) : ℚ)⟩
  let darkColors :=
    { state.darkColors with
      primary := hslValue
      ring := hslValue
      sidebarPrimary := hslValue
      primaryForeground := primaryForeground
      sidebarPrimaryForeground := primaryForeground
      secondary := darkSecondaryHSLValue
      muted := darkSecondaryHSLValue
      secondaryForeground := ⟨(darkSecondaryH : ℚ), 10, 95⟩
      mutedForeground := ⟨(darkSecondaryH : ℚ), 15, 65⟩
      accent := darkAccentHSLValue
      accentForeground := ⟨(darkAccentH : ℚ), 50, 10⟩
      sidebarAccent := darkAccentHSLValue
      sidebarAccentForeground := ⟨(darkAccentH : ℚ), 50, 10⟩
      border := border
      input := border
      sidebarBorder := border
      chart1 := hslValue
      chart2 := ⟨(h : ℚ), ((min (s + 5) 90 : ℤ) : ℚ), ((min (l + 15) 75 : ℤ) : ℚ)⟩
      chart3 := ⟨(h : ℚ), ((min (s + 10) 95 : ℤ) : ℚ), ((min (l + 25) 85 : ℤ) : ℚ)⟩
      chart4 := ⟨(h : ℚ), ((max (s - 10) 40 : ℤ) : ℚ), ((max (l - 15) 25 : ℤ) : ℚ)⟩
      chart5 := ⟨(h : ℚ), ((max (s - 20) 30 : ℤ) : ℚ), ((max (l - 25) 15 : ℤ) : ℚ)⟩ }
  { state with colors := state.colors, darkColors := darkColors }

/-- The `key === "background"` branch of `updateThemeColor`: sets
background/card/popover on the light palette unconditionally; when dark
mode is active, also sets dark's background/card/popover/sidebar. -/
def updateBackground (hslValue : HSL) (state : ThemeState) : ThemeState :=
  let lightColors :=
    { state.colors with background := hslValue, card := hslValue, popover := hslValue }
  let darkColors :=
    if state.isDarkMode then
      { state.darkColors with
        background := hslValue, card := hslValue, popover := hslValue,
        sidebar := hslValue }
    else state.darkColors
  { state with colors := lightColors, darkColors := darkColors }

/-- The `key === "foreground"` branch of `updateThemeColor`. -/
def updateForeground (hslValue : HSL) (state : ThemeState) : ThemeState :=
  let lightColors :=
    { state.colors with
      foreground := hslValue, cardForeground := hslValue, popoverForeground := hslValue }
  let darkForeground := getContrastHSL hslValue
  let darkColors :=
    { state.darkColors with
      foreground := darkForeground, cardForeground := darkForeground,
      popoverForeground := darkForeground }
  { state with colors := lightColors, darkColors := darkColors }

/-- The `key === "primary"` branch of `updateThemeColor` when dark mode is
not the first branch's case: updates the light palette and, only when dark
mode is inactive, regenerates the dark chart series from dark's own
pre-edit primary/secondary/accent before overwriting dark's primary. -/
def updatePrimaryLight (hslValue : HSL) (state : ThemeState) : ThemeState :=
  let lightChartColors :=
    generateChartColors hslValue state.colors.secondary state.colors.accent false
  let lightColors :=
    { state.colors with
      primary := hslValue
      primaryForeground := calculateContrastingColor hslValue
      ring := hslValue
      sidebarPrimary := hslValue
      sidebarPrimaryForeground := calculateContrastingColor hslValue
      sidebarRing := hslValue
      chart1 := lightChartColors.chart1
      chart2 := lightChartColors.chart2
      chart3 := lightChartColors.chart3
      chart4 := lightChartColors.chart4
      chart5 := lightChartColors.chart5 }
  let darkColors :=
    if state.isDarkMode then state.darkColors
    else
      let darkChartColors :=
        generateChartColors state.darkColors.primary state.darkColors.secondary
          state.darkColors.accent true
      { state.darkColors with
        chart1 := darkChartColors.chart1
        chart2 := darkChartColors.chart2
        chart3 := darkChartColors.chart3
        chart4 := darkChartColors.chart4
        chart5 := darkChartColors.chart5
        primary := hslValue
        primaryForeground := calculateContrastingColor hslValue
        ring := hslValue
        sidebarPrimary := hslValue
        sidebarPrimaryForeground := calculateContrastingColor hslValue
        sidebarRing := hslValue }
  { state with colors := lightColors, darkColors := darkColors }

/-- The `key === "secondary"` branch of `updateThemeColor`. -/
def updateSecondary (hslValue : HSL) (state : ThemeState) : ThemeState :=
  let lightChartColors :=
    generateChartColors state.colors.primary hslValue state.colors.accent false
  let lightColors :=
    { state.colors with
      secondary := hslValue
      secondaryForeground := calculateContrastingColor hslValue
      muted := hslValue
      mutedForeground := calculateContrastingColor hslValue .mutedForeground
      sidebar := hslValue
      sidebarForeground := calculateContrastingColor hslValue
      chart1 := lightChartColors.chart1
      chart2 := lightChartColors.chart2
      chart3 := lightChartColors.chart3
      chart4 := lightChartColors.chart4
      chart5 := lightChartColors.chart5 }
  let darkColors :=
    if state.isDarkMode then state.darkColors
    else
      let darkChartColors :=
        generateChartColors state.darkColors.primary state.darkColors.secondary
          state.darkColors.accent true
      let secondaryL := hslValue.l
      let darkSecondary : HSL :=
        ⟨hslValue.h, max (hslValue.s - 20) 10, max 15 (min 25 (secondaryL - 70))⟩
      { state.darkColors with
        chart1 := darkChartColors.chart1
        chart2 := darkChartColors.chart2
        chart3 := darkChartColors.chart3
        chart4 := darkChartColors.chart4
        chart5 := darkChartColors.chart5
        secondary := darkSecondary
        secondaryForeground := calculateContrastingColor darkSecondary
        muted := darkSecondary
        mutedForeground := calculateContrastingColor darkSecondary .mutedForeground }
  { state with colors := lightColors, darkColors := darkColors }

/-- The `key === "accent"` branch of `updateThemeColor`.  When dark mode is
inactive, dark's accent/sidebarAccent are set to the new value verbatim
(the source assigns `hslValue` directly). -/
def updateAccent (hslValue : HSL) (state : ThemeState) : ThemeState :=
  let lightChartColors :=
    generateChartColors state.colors.primary state.colors.secondary hslValue false
  let lightColors :=
    { state.colors with
      accent := hslValue
      accentForeground := calculateContrastingColor hslValue
      sidebarAccent := hslValue
      sidebarAccentForeground := calculateContrastingColor hslValue
      chart1 := lightChartColors.chart1
      chart2 := lightChartColors.chart2
      chart3 := lightChartColors.chart3
      chart4 := lightChartColors.chart4
      chart5 := lightChartColors.chart5 }
  let darkColors :=
    if state.isDarkMode then state.darkColors
    else
      let darkChartColors :=
        generateChartColors state.darkColors.primary state.darkColors.secondary
          state.darkColors.accent true
      { state.darkColors with
        chart1 := darkChartColors.chart1
        chart2 := darkChartColors.chart2
        chart3 := darkChartColors.chart3
        chart4 := darkChartColors.chart4
        chart5 := darkChartColors.chart5
        accent := hslValue
        accentForeground := calculateContrastingColor hslValue
        sidebarAccent := hslValue
        sidebarAccentForeground := calculateContrastingColor hslValue }
  { state with colors := lightColors, darkColors := darkColors }

/-- The pure state transition of `updateThemeColor(key, hexValue)` from the
source store (the CSS-variable and URL side effects are sinks outside the
engine).  `hslValue` is the result of `hexToHSL(hexValue)`.  The source's
`if/else if` chain on `(key, isDarkMode)` is rendered as a match on the key
with the dark-mode test inside the `primary` case; the two are reachable
under exactly the same conditions. -/
def updateThemeColor (key : ThemeColorKey) (hslValue : HSL) (state : ThemeState) :
    ThemeState :=
  match key with
  | .primary =>
      if state.isDarkMode then updatePrimaryDark hslValue state
      else updatePrimaryLight hslValue state
  | .background => updateBackground hslValue state
  | .foreground => updateForeground hslValue state
  | .secondary => updateSecondary hslValue state
  | .accent => updateAccent hslValue state
  | k =>
      { state with
        colors := state.colors.setField k hslValue,
        darkColors := state.darkColors.setField k hslValue }

/-- `deriveDarkModeColors` from the source: a consistent dark palette
derived from a light palette (starts from a copy, so untouched roles such
as destructive carry over). -/
def deriveDarkModeColors (lightColors : ThemeColors) : ThemeColors :=
  let primaryH := lightColors.primary.h
  let primaryS := lightColors.primary.s
  let primaryL := lightColors.primary.l
  let secondaryH := lightColors.secondary.h
  let secondaryS := lightColors.secondary.s
  let secondaryL := lightColors.secondary.l
  let accentH := lightColors.accent.h
  let accentS := lightColors.accent.s
  let accentL := lightColors.accent.l
  let background : HSL := ⟨primaryH, 30, 8⟩
  let card : HSL := ⟨primaryH, 30, 12⟩
  let foreground : HSL := ⟨primaryH, 10, 95⟩
  let primary : HSL := ⟨primaryH, max primaryS 60, min (max primaryL 50) 60⟩
  let primaryForeground := calculateContrastingColor primary
  let secondary : HSL := ⟨secondaryH, max secondaryS 10, max 15 (min 25 (secondaryL - 70))⟩
  let accent : HSL := ⟨accentH, max accentS 60, min (max (accentL - 20) 40) 60⟩
  let accentForeground := calculateContrastingColor accent
  let border : HSL := ⟨primaryH, 25, 18⟩
  let chartColors := generateChartColors primary secondary accent true
  { lightColors with
    background := background
    card := card
    popover := card
    foreground := foreground
    cardForeground := foreground
    popoverForeground := foreground
    primary := primary
    ring := primary
    primaryForeground := primaryForeground
    secondary := secondary
    secondaryForeground := calculateContrastingColor secondary
    muted := secondary
    mutedForeground := ⟨secondaryH, 15, 65⟩
    accent := accent
    accentForeground := accentForeground
    border := border
    input := border
    sidebar := background
    sidebarForeground := foreground
    sidebarPrimary := primary
    sidebarPrimaryForeground := primaryForeground
    sidebarAccent := accent
    sidebarAccentForeground := accentForeground
    sidebarBorder := border
    sidebarRing := primary
    chart1 := chartColors.chart1
    chart2 := chartColors.chart2
    chart3 := chartColors.chart3
    chart4 := chartColors.chart4
    chart5 := chartColors.chart5 }

/-- The `Object.entries(theme.colors).forEach` loop of `setCurrentTheme`:
each preset color present whose key does not contain "foreground" is
written into the light palette (so the preset's `foreground` entry is
skipped by the `key.includes("foreground")` filter). -/
def applyPresetBase (pc : PresetColors) (c : ThemeColors) : ThemeColors :=
  let c := match pc.background with | some v => { c with background := v } | none => c
  let c := match pc.primary with | some v => { c with primary := v } | none => c
  let c := match pc.secondary with | some v => { c with secondary := v } | none => c
  let c := match pc.accent with | some v => { c with accent := v } | none => c
  let c := match pc.chart1 with | some v => { c with chart1 := v } | none => c
  let c := match pc.chart2 with | some v => { c with chart2 := v } | none => c
  let c := match pc.chart3 with | some v => { c with chart3 := v } | none => c
  let c := match pc.chart4 with | some v => { c with chart4 := v } | none => c
  let c := match pc.chart5 with | some v => { c with chart5 := v } | none => c
  c

/-- The per-chart dark-mode counterpart assignment used by
`setCurrentTheme` for each provided preset chart color. -/
def presetDarkChart (v : HSL) : HSL :=
  ⟨v.h, max v.s 60, min (max v.l 50) 60⟩

/-- The pure state transition of `setCurrentTheme(themeName)` from the
source store: look the name up in `predefinedThemes`; if absent, return the
state unchanged; otherwise apply the preset's colors (recomputing
foregrounds via the Contrast Resolver and re-deriving the dark palette),
fonts and border radius, and record the new current theme name. -/
def setCurrentTheme (themeName : String) (state : ThemeState) : ThemeState :=
  match state.predefinedThemes.find? (fun t => t.name == themeName) with
  | none => state
  | some theme =>
    let pair : ThemeColors × ThemeColors :=
      match theme.colors with
      | none => (state.colors, state.darkColors)
      | some pc =>
        let base := applyPresetBase pc state.colors
        let newLightColors :=
          { base with
            primaryForeground := calculateContrastingColor base.primary
            secondaryForeground := calculateContrastingColor base.secondary
            accentForeground := calculateContrastingColor base.accent
            mutedForeground := calculateContrastingColor base.muted .mutedForeground
            cardForeground := calculateContrastingColor base.card
            popoverForeground := calculateContrastingColor base.popover
            sidebarForeground := calculateContrastingColor base.sidebar
            sidebarPrimaryForeground := calculateContrastingColor base.sidebarPrimary
            sidebarAccentForeground := calculateContrastingColor base.sidebarAccent }
        let newDarkColors := deriveDarkModeColors newLightColors
        let step (sel : PresetColors → Option HSL)
            (setL : ThemeColors → HSL → ThemeColors)
            (setD : ThemeColors → HSL → ThemeColors)
            (p : ThemeColors × ThemeColors) : ThemeColors × ThemeColors :=
          match sel pc with
          | some v => (setL p.1 v, setD p.2 (presetDarkChart v))
          | none => p
        let p := (newLightColors, newDarkColors)
        let p := step (fun pc => pc.chart1) (fun c v => { c with chart1 := v })
          (fun c v => { c with chart1 := v }) p
        let p := step (fun pc => pc.chart2) (fun c v => { c with chart2 := v })
          (fun c v => { c with chart2 := v }) p
        let p := step (fun pc => pc.chart3) (fun c v => { c with chart3 := v })
          (fun c v => { c with chart3 := v }) p
        let p := step (fun pc => pc.chart4) (fun c v => { c with chart4 := v })
          (fun c v => { c with chart4 := v }) p
        let p := step (fun pc => pc.chart5) (fun c v => { c with chart5 := v })
          (fun c v => { c with chart5 := v }) p
        p
    let newFonts :=
      match theme.fonts with
      | none => state.fonts
      | some pf =>
        { heading := pf.heading.getD state.fonts.heading
          body := pf.body.getD state.fonts.body }
    let newBorderRadius := theme.borderRadius.getD state.borderRadius
    { state with
      colors := pair.1
      darkColors := pair.2
      fonts := newFonts
      borderRadius := newBorderRadius
      currentTheme := themeName }

/-- Round-to-nearest used when quantizing RGB channels to 0–255
integers. -/
def ratRound (q : ℚ) : ℤ := ⌊q + 1 / 2⌋

/-- Two lowercase hex digits of a channel value clamped to 0–255. -/
def hexDigitPair (n : ℤ) : String :=
  let m := (max 0 (min 255 n)).toNat
  String.mk [Nat.digitChar (m / 16), Nat.digitChar (m % 16)]

/-- Modelled from the spec: the HSL→RGB step of `hslToHex` from the missing
color-utils module (§4.1: hex channels are 0–255 integers, components
rounded).  Standard HSL→RGB conversion. -/
def hslToRGB (c : HSL) : ℤ × ℤ × ℤ :=
  let s := c.s / 100
  let l := c.l / 100
  let chroma := (1 - |2 * l - 1|) * s
  let hp := c.h / 60
  let hm := hp - 2 * (⌊hp / 2⌋ : ℚ)
  let x := chroma * (1 - |hm - 1|)
  let m := l - chroma / 2
  let rgb1 : ℚ × ℚ × ℚ :=
    if c.h < 60 then (chroma, x, 0)
    else if c.h < 120 then (x, chroma, 0)
    else if c.h < 180 then (0, chroma, x)
    else if c.h < 240 then (0, x, chroma)
    else if c.h < 300 then (x, 0, chroma)
    else (chroma, 0, x)
  (ratRound ((rgb1.1 + m) * 255), ratRound ((rgb1.2.1 + m) * 255),
    ratRound ((rgb1.2.2 + m) * 255))

/-- Modelled from the spec: `hslToHex` from the missing color-utils module
(§4.1) — serialize the quantized RGB channels as a 6-digit hex string. -/
def hslToHex (c : HSL) : String :=
  let rgb := hslToRGB c
  "#" ++ hexDigitPair rgb.1 ++ hexDigitPair rgb.2.1 ++ hexDigitPair rgb.2.2

/-- The palette currently driving the UI: dark when the dark-mode flag is
set, light otherwise (the `state.isDarkMode ? state.darkColors :
state.colors` selection in the source). -/
def activeColors (state : ThemeState) : ThemeColors :=
  if state.isDarkMode then state.darkColors else state.colors

/-- `getHexColor` from the source store: hex conversion of the active
palette's value for the five seed roles, the constant "#000000" for every
other key. -/
def getHexColor (colorKey : ThemeColorKey) (state : ThemeState) : String :=
  let colors := activeColors state
  match colorKey with
  | .foreground => hslToHex colors.foreground
  | .background => hslToHex colors.background
  | .primary => hslToHex colors.primary
  | .secondary => hslToHex colors.secondary
  | .accent => hslToHex colors.accent
  | _ => "#000000"

/-- The light palette of the built-in `defaultTheme`. -/
def defaultLightColors : ThemeColors where
  background := ⟨0, 0, 100⟩
  foreground := ⟨291, 10, 4⟩
  card := ⟨0, 0, 100⟩
  cardForeground := ⟨291, 10, 4⟩
  popover := ⟨0, 0, 100⟩
  popoverForeground := ⟨291, 10, 4⟩
  primary := ⟨291, 80, 45⟩
  primaryForeground := ⟨291, 10, 95⟩
  secondary := ⟨291, 30, 85⟩
  secondaryForeground := ⟨291, 30, 10⟩
  muted := ⟨291, 30, 85⟩
  mutedForeground := ⟨291, 30, 45⟩
  accent := ⟨291, 50, 75⟩
  accentForeground := ⟨291, 50, 10⟩
  destructive := ⟨357.18, 100, 45⟩
  border := ⟨291, 30, 80⟩
  input := ⟨291, 30, 80⟩
  ring := ⟨291, 80, 45⟩
  chart1 := ⟨291, 80, 45⟩
  chart2 := ⟨291, 70, 60⟩
  chart3 := ⟨291, 60, 70⟩
  chart4 := ⟨291, 85, 30⟩
  chart5 := ⟨291, 85, 20⟩
  sidebar := ⟨291, 30, 85⟩
  sidebarForeground := ⟨291, 30, 10⟩
  sidebarPrimary := ⟨291, 80, 45⟩
  sidebarPrimaryForeground := ⟨291, 10, 95⟩
  sidebarAccent := ⟨291, 50, 75⟩
  sidebarAccentForeground := ⟨291, 50, 10⟩
  sidebarBorder := ⟨291, 30, 80⟩
  sidebarRing := ⟨291, 80, 45⟩

/-- The dark palette of the built-in `defaultTheme`. -/
def defaultDarkColors : ThemeColors where
  background := ⟨291, 40, 8⟩
  foreground := ⟨291, 10, 95⟩
  card := ⟨291, 40, 12⟩
  cardForeground := ⟨291, 10, 95⟩
  popover := ⟨291, 40, 12⟩
  popoverForeground := ⟨291, 10, 95⟩
  primary := ⟨291, 75, 50⟩
  primaryForeground := ⟨291, 10, 95⟩
  secondary := ⟨291, 30, 15⟩
  secondaryForeground := ⟨291, 30, 95⟩
  muted := ⟨291, 30, 15⟩
  mutedForeground := ⟨291, 15, 65⟩
  accent := ⟨291, 50, 25⟩
  accentForeground := ⟨291, 50, 95⟩
  destructive := ⟨357.18, 100, 45⟩
  border := ⟨291, 40, 25⟩
  input := ⟨291, 40, 25⟩
  ring := ⟨291, 75, 50⟩
  chart1 := ⟨291, 75, 50⟩
  chart2 := ⟨291, 80, 65⟩
  chart3 := ⟨291, 85, 75⟩
  chart4 := ⟨291, 65, 35⟩
  chart5 := ⟨291, 50, 25⟩
  sidebar := ⟨291, 40, 8⟩
  sidebarForeground := ⟨291, 10, 95⟩
  sidebarPrimary := ⟨291, 75, 50⟩
  sidebarPrimaryForeground := ⟨291, 10, 95⟩
  sidebarAccent := ⟨291, 50, 25⟩
  sidebarAccentForeground := ⟨291, 50, 95⟩
  sidebarBorder := ⟨291, 40, 25⟩
  sidebarRing := ⟨291, 75, 50⟩

/-- The single built-in "Default" preset.  The source stores its colors as
hex strings (converted through the missing color-utils hexToHSL on use);
each is represented here by the HSL triple of the light-palette role the
source pairs it with — every preset hex carries the same inline oklch
annotation as the matching `defaultTheme.colors` entry. -/
def defaultPreset : ThemePreset where
  name := "Default"
  colors := some
    { background := some ⟨0, 0, 100⟩
      foreground := some ⟨291, 10, 4⟩
      primary := some ⟨291, 80, 45⟩
      secondary := some ⟨291, 30, 85⟩
      accent := some ⟨291, 50, 75⟩
      chart1 := some ⟨291, 80, 45⟩
      chart2 := some ⟨291, 70, 60⟩
      chart3 := some ⟨291, 60, 70⟩
      chart4 := some ⟨291, 85, 30⟩
      chart5 := some ⟨291, 85, 20⟩ }
  fonts := some { heading := some "Geist", body := some "Geist" }
  borderRadius := none

/-- The built-in `defaultTheme` state. -/
def defaultThemeState : ThemeState where
  colors := defaultLightColors
  darkColors := defaultDarkColors
  fonts := { heading := "Geist", body := "Geist" }
  borderRadius := 0.5
  isDarkMode := false
  selectedHarmony := "monochromatic"
  exportMenuOpen := false
  shareMenuOpen := false
  predefinedThemes := [defaultPreset]
  currentTheme := "Default"

/-- The default theme with dark mode switched on: a convenient concrete
dark-mode state for evaluating the dark-mode branches. -/
def darkDefaultState : ThemeState :=
  { defaultThemeState with isDarkMode := true }

/-- The six-color compact group of the shareable-link encoder
(`l`/`d` groups of `encodeThemeState`).  The "H,S,L" compact string
produced by `compactHSL` carries exactly the numeric triple, which is what
this record stores. -/
structure EncodedColorGroup where
  bg : HSL
  fg : HSL
  p : HSL
  s : HSL
  a : HSL
  d : HSL
deriving DecidableEq, Repr

/-- The minimal theme token built by `encodeThemeState` before JSON/base64
serialization: optional fields are represented by `Option`, `none` meaning
the key is omitted from the object. -/
structure EncodedTheme where
  l : EncodedColorGroup
  d : Option EncodedColorGroup
  f : Option (List (Option String))
  r : Option ℚ
  dm : Option Nat
deriving DecidableEq, Repr

/-- The compact group of one palette's six seed colors. -/
def compactGroup (c : ThemeColors) : EncodedColorGroup where
  bg := c.background
  fg := c.foreground
  p := c.primary
  s := c.secondary
  a := c.accent
  d := c.destructive

/-- `encodeThemeState` from the source (the content of the minimal object;
JSON text and base64 are byte-level serialization outside the model): the
light group always; the dark group and the `dm` flag only when dark mode is
active; `f` only when a font differs from "Geist", with the null-cleanup
pass; `r` only when `borderRadius !== 8`. -/
def encodeThemeState (theme : ThemeState) : EncodedTheme :=
  let f0 : Option (List (Option String)) :=
    if theme.fonts.heading ≠ "Geist" ∨ theme.fonts.body ≠ "Geist" then
      some [if theme.fonts.heading = "Geist" then none else some theme.fonts.heading,
            if theme.fonts.body = "Geist" then none else some theme.fonts.body]
    else none
  let f : Option (List (Option String)) :=
    match f0 with
    | some [none, none] => none
    | some [some a, none] => some [some a]
    | x => x
  { l := compactGroup theme.colors
    d := if theme.isDarkMode then some (compactGroup theme.darkColors) else none
    f := f
    r := if theme.borderRadius ≠ 8 then some theme.borderRadius else none
    dm := if theme.isDarkMode then some 1 else none }

/-- C1: for every valid hex input (HSL components h < 360, s, l ≤ 100 as
produced by hexToHSL) and every theme state with dark mode active,
`updateThemeColor("primary", hex)` overwrites `darkPalette.secondary` with
hue h, saturation clamped into [7,30] from s − 40, lightness clamped into
[15,30] from l − 20, and overwrites `darkPalette.accent` with hue
(h + 30) mod 360, saturation min (s + 5) 80 and lightness min (l + 15) 65
(full re-synthesis, never a passive copy). -/
theorem updateThemeColor_primary_dark_resynthesizes_secondary_accent
    (h s l : ℤ) (hh0 : 0 ≤ h) (hh1 : h < 360) (hs0 : 0 ≤ s) (hs1 : s ≤ 100)
    (hl0 : 0 ≤ l) (hl1 : l ≤ 100) (state : ThemeState)
    (hdark : state.isDarkMode = true) :
    (updateThemeColor .primary ⟨(h : ℚ), (s : ℚ), (l : ℚ)⟩ state).darkColors.secondary
      = ⟨(h : ℚ), ((max (min (s - 40) 30) 7 : ℤ) : ℚ), ((max (min (l - 20) 30) 15 : ℤ) : ℚ)⟩ ∧
    (updateThemeColor .primary ⟨(h : ℚ), (s : ℚ), (l : ℚ)⟩ state).darkColors.accent
      = ⟨(((h + 30) % 360 : ℤ) : ℚ), ((min (s + 5) 80 : ℤ) : ℚ), ((min (l + 15) 65 : ℤ) : ℚ)⟩ := by
  refine ⟨?_, ?_⟩ <;>
    simp only [updateThemeColor, hdark, if_true, updatePrimaryDark, jsParseInt_intCast]
  rw [Int.tmod_eq_emod (by omega) (by norm_num)]

theorem updateThemeColor_primary_dark_resynthesizes_secondary_accent_witness :
    (updateThemeColor .primary ⟨120, 80, 50⟩ darkDefaultState).darkColors.secondary
      = ⟨120, 30, 30⟩ ∧
    (updateThemeColor .primary ⟨120, 80, 50⟩ darkDefaultState).darkColors.accent
      = ⟨150, 80, 65⟩ := by
  have hmain := updateThemeColor_primary_dark_resynthesizes_secondary_accent 120 80 50
    (by norm_num) (by norm_num) (by norm_num) (by norm_num) (by norm_num) (by norm_num)
    darkDefaultState rfl
  push_cast at hmain
  norm_num [min_def, max_def] at hmain
  exact hmain

/-- C2: for every input color and every theme state with dark mode
inactive, `updateThemeColor("primary", hex)` leaves the light palette's
secondary and accent at their pre-edit values. -/
theorem updateThemeColor_primary_light_preserves_secondary_accent
    (v : HSL) (state : ThemeState) (hlight : state.isDarkMode = false) :
    (updateThemeColor .primary v state).colors.secondary = state.colors.secondary ∧
    (updateThemeColor .primary v state).colors.accent = state.colors.accent := by
  simp [updateThemeColor, hlight, updatePrimaryLight]

theorem updateThemeColor_primary_light_preserves_secondary_accent_witness :
    (updateThemeColor .primary ⟨1, 2, 3⟩ defaultThemeState).colors.secondary
      = defaultThemeState.colors.secondary ∧
    (updateThemeColor .primary ⟨1, 2, 3⟩ defaultThemeState).colors.accent
      = defaultThemeState.colors.accent :=
  updateThemeColor_primary_light_preserves_secondary_accent ⟨1, 2, 3⟩ defaultThemeState rfl

/-- C3: `generateChartColors` returns chart1 equal to the input primary
unchanged in both modes, and in light mode the remaining outputs keep the
primary's hue and follow the rule table exactly: chart2 =
(max (s−15) 30, min (l+15) 75), chart3 = (max (s−30) 20, min (l+25) 85),
chart4 = (min (s+10) 90, max (l−15) 25), chart5 =
(min (s+5) 85, max (l−25) 20), for any secondary/accent inputs. -/
theorem generateChartColors_chart1_and_light_rule_table (p sec acc : HSL) :
    (generateChartColors p sec acc true).chart1 = p ∧
    (generateChartColors p sec acc false).chart1 = p ∧
    (generateChartColors p sec acc false).chart2
      = ⟨p.h, max (p.s - 15) 30, min (p.l + 15) 75⟩ ∧
    (generateChartColors p sec acc false).chart3
      = ⟨p.h, max (p.s - 30) 20, min (p.l + 25) 85⟩ ∧
    (generateChartColors p sec acc false).chart4
      = ⟨p.h, min (p.s + 10) 90, max (p.l - 15) 25⟩ ∧
    (generateChartColors p sec acc false).chart5
      = ⟨p.h, min (p.s + 5) 85, max (p.l - 25) 20⟩ :=
  ⟨rfl, rfl, rfl, rfl, rfl, rfl⟩

/-- C4 counterexample: with dark mode active and the new primary
(0, 50%, 60%), the inline dark chart computation of
`updateThemeColor("primary", ·)` yields chart2 lightness min (60+15) 75 =
75, while `generateChartColors` with `isDarkMode = true` yields
min (60+15) 70 = 70 — the two differ, so the inline computation does not
equal the §4.3 dark-mode chart generator. -/
theorem updateThemeColor_primary_dark_charts_ne_generator :
    (updateThemeColor .primary ⟨0, 50, 60⟩ darkDefaultState).darkColors.chart2 ≠
      (generateChartColors ⟨0, 50, 60⟩ darkDefaultState.darkColors.secondary
        darkDefaultState.darkColors.accent true).chart2 := by
  have h1 : (updateThemeColor .primary ⟨0, 50, 60⟩ darkDefaultState).darkColors.chart2
      = ⟨0, 55, 75⟩ := rfl
  have h2 : (generateChartColors ⟨0, 50, 60⟩ darkDefaultState.darkColors.secondary
        darkDefaultState.darkColors.accent true).chart2 = ⟨0, 55, 70⟩ := by
    simp only [generateChartColors]
    norm_num [min_def, max_def]
  intro hc
  rw [h1, h2] at hc
  norm_num [HSL.mk.injEq] at hc

/-- C4 amended: in dark mode the inline chart series of
`updateThemeColor("primary", ·)` agrees with the §4.3 dark-mode generator
on chart1, on every hue, and on every saturation, but uses its own
lightness bounds — ceiling 75 for chart2 and 85 for chart3, floor 25 for
chart4 and 15 for chart5 — instead of the generator's 70, 80, 30, 20. -/
theorem updateThemeColor_primary_dark_inline_chart_rules
    (h s l : ℤ) (sec acc : HSL) (state : ThemeState)
    (hdark : state.isDarkMode = true) :
    (updateThemeColor .primary ⟨(h : ℚ), (s : ℚ), (l : ℚ)⟩ state).darkColors.chart1
      = (generateChartColors ⟨(h : ℚ), (s : ℚ), (l : ℚ)⟩ sec acc true).chart1 ∧
    ((updateThemeColor .primary ⟨(h : ℚ), (s : ℚ), (l : ℚ)⟩ state).darkColors.chart2.h
        = (generateChartColors ⟨(h : ℚ), (s : ℚ), (l : ℚ)⟩ sec acc true).chart2.h ∧
      (updateThemeColor .primary ⟨(h : ℚ), (s : ℚ), (l : ℚ)⟩ state).darkColors.chart2.s
        = (generateChartColors ⟨(h : ℚ), (s : ℚ), (l : ℚ)⟩ sec acc true).chart2.s ∧
      (updateThemeColor .primary ⟨(h : ℚ), (s : ℚ), (l : ℚ)⟩ state).darkColors.chart2.l
        = ((min (l + 15) 75 : ℤ) : ℚ)) ∧
    ((updateThemeColor .primary ⟨(h : ℚ), (s : ℚ), (l : ℚ)⟩ state).darkColors.chart3.h
        = (generateChartColors ⟨(h : ℚ), (s : ℚ), (l : ℚ)⟩ sec acc true).chart3.h ∧
      (updateThemeColor .primary ⟨(h : ℚ), (s : ℚ), (l : ℚ)⟩ state).darkColors.chart3.s
        = (generateChartColors ⟨(h : ℚ), (s : ℚ), (l : ℚ)⟩ sec acc true).chart3.s ∧
      (updateThemeColor .primary ⟨(h : ℚ), (s : ℚ), (l : ℚ)⟩ state).darkColors.chart3.l
        = ((min (l + 25) 85 : ℤ) : ℚ)) ∧
    ((updateThemeColor .primary ⟨(h : ℚ), (s : ℚ), (l : ℚ)⟩ state).darkColors.chart4.h
        = (generateChartColors ⟨(h : ℚ), (s : ℚ), (l : ℚ)⟩ sec acc true).chart4.h ∧
      (updateThemeColor .primary ⟨(h : ℚ), (s : ℚ), (l : ℚ)⟩ state).darkColors.chart4.s
        = (generateChartColors ⟨(h : ℚ), (s : ℚ), (l : ℚ)⟩ sec acc true).chart4.s ∧
      (updateThemeColor .primary ⟨(h : ℚ), (s : ℚ), (l : ℚ)⟩ state).darkColors.chart4.l
        = ((max (l - 15) 25 : ℤ) : ℚ)) ∧
    ((updateThemeColor .primary ⟨(h : ℚ), (s : ℚ), (l : ℚ)⟩ state).darkColors.chart5.h
        = (generateChartColors ⟨(h : ℚ), (s : ℚ), (l : ℚ)⟩ sec acc true).chart5.h ∧
      (updateThemeColor .primary ⟨(h : ℚ), (s : ℚ), (l : ℚ)⟩ state).darkColors.chart5.s
        = (generateChartColors ⟨(h : ℚ), (s : ℚ), (l : ℚ)⟩ sec acc true).chart5.s ∧
      (updateThemeColor .primary ⟨(h : ℚ), (s : ℚ), (l : ℚ)⟩ state).darkColors.chart5.l
        = ((max (l - 25) 15 : ℤ) : ℚ)) := by
  simp only [updateThemeColor, hdark, if_true, updatePrimaryDark, jsParseInt_intCast,
    generateChartColors]
  repeat' apply And.intro
  all_goals first | rfl | trivial | (push_cast; rfl)

theorem updateThemeColor_primary_dark_inline_chart_rules_witness :
    (updateThemeColor .primary ⟨0, 50, 60⟩ darkDefaultState).darkColors.chart1
      = (generateChartColors ⟨0, 50, 60⟩ ⟨0, 0, 0⟩ ⟨0, 0, 0⟩ true).chart1 ∧
    (updateThemeColor .primary ⟨0, 50, 60⟩ darkDefaultState).darkColors.chart2.l = 75 ∧
    (updateThemeColor .primary ⟨0, 50, 60⟩ darkDefaultState).darkColors.chart3.l = 85 ∧
    (updateThemeColor .primary ⟨0, 50, 60⟩ darkDefaultState).darkColors.chart4.l = 45 ∧
    (updateThemeColor .primary ⟨0, 50, 60⟩ darkDefaultState).darkColors.chart5.l = 35 := by
  have hmain := updateThemeColor_primary_dark_inline_chart_rules 0 50 60 ⟨0, 0, 0⟩ ⟨0, 0, 0⟩
    darkDefaultState rfl
  push_cast at hmain
  norm_num [min_def, max_def] at hmain
  exact ⟨hmain.1, hmain.2.1.2.2, hmain.2.2.1.2.2, hmain.2.2.2.1.2.2, hmain.2.2.2.2.2.2⟩

/-- C5 counterexample: with dark mode active, editing `background` does not
leave the light palette untouched — the light palette's background changes
to the new value. -/
theorem updateThemeColor_background_dark_mutates_light :
    (updateThemeColor .background ⟨200, 50, 50⟩ darkDefaultState).colors.background ≠
      darkDefaultState.colors.background := by
  intro hc
  have h1 : (updateThemeColor .background ⟨200, 50, 50⟩ darkDefaultState).colors.background
      = ⟨200, 50, 50⟩ := rfl
  have h2 : darkDefaultState.colors.background = ⟨0, 0, 100⟩ := rfl
  rw [h1, h2] at hc
  norm_num [HSL.mk.injEq] at hc

/-- C5 amended: with dark mode active, `updateThemeColor("background", hex)`
sets background/card/popover/sidebar of the dark palette to the new value,
and also sets background/card/popover of the light palette to the new value
(every other light-palette field, and every other state field, is
unchanged). -/
theorem updateThemeColor_background_dark_effect
    (v : HSL) (state : ThemeState) (hdark : state.isDarkMode = true) :
    (updateThemeColor .background v state).colors
      = { state.colors with background := v, card := v, popover := v } ∧
    (updateThemeColor .background v state).darkColors
      = { state.darkColors with background := v, card := v, popover := v, sidebar := v } ∧
    (updateThemeColor .background v state).fonts = state.fonts ∧
    (updateThemeColor .background v state).borderRadius = state.borderRadius ∧
    (updateThemeColor .background v state).isDarkMode = state.isDarkMode ∧
    (updateThemeColor .background v state).selectedHarmony = state.selectedHarmony ∧
    (updateThemeColor .background v state).exportMenuOpen = state.exportMenuOpen ∧
    (updateThemeColor .background v state).shareMenuOpen = state.shareMenuOpen ∧
    (updateThemeColor .background v state).predefinedThemes = state.predefinedThemes ∧
    (updateThemeColor .background v state).currentTheme = state.currentTheme := by
  simp [updateThemeColor, updateBackground, hdark]

theorem updateThemeColor_background_dark_effect_witness :
    (updateThemeColor .background ⟨200, 50, 50⟩ darkDefaultState).colors
      = { darkDefaultState.colors with
          background := ⟨200, 50, 50⟩, card := ⟨200, 50, 50⟩, popover := ⟨200, 50, 50⟩ } ∧
    (updateThemeColor .background ⟨200, 50, 50⟩ darkDefaultState).darkColors
      = { darkDefaultState.darkColors with
          background := ⟨200, 50, 50⟩, card := ⟨200, 50, 50⟩, popover := ⟨200, 50, 50⟩,
          sidebar := ⟨200, 50, 50⟩ } :=
  have hmain := updateThemeColor_background_dark_effect ⟨200, 50, 50⟩ darkDefaultState rfl
  ⟨hmain.1, hmain.2.1⟩

/-- C6 counterexample: with dark mode inactive, editing `accent` sets the
dark palette's accent to an exact verbatim copy of the new value — which
then also equals the light palette's accent, duplicating the exact seed
value across modes. -/
theorem updateThemeColor_accent_light_dark_verbatim_copy :
    (updateThemeColor .accent ⟨123, 45, 67⟩ defaultThemeState).darkColors.accent
      = ⟨123, 45, 67⟩ ∧
    (updateThemeColor .accent ⟨123, 45, 67⟩ defaultThemeState).darkColors.accent
      = (updateThemeColor .accent ⟨123, 45, 67⟩ defaultThemeState).colors.accent :=
  ⟨rfl, rfl⟩

/-- C6 amended: with dark mode inactive, `updateThemeColor("accent", hex)`
sets the dark palette's accent and sidebarAccent to the new value verbatim
(no darkened/lightened transform), so both palettes carry the exact same
accent seed value after the edit. -/
theorem updateThemeColor_accent_light_dark_copy_rule
    (v : HSL) (state : ThemeState) (hlight : state.isDarkMode = false) :
    (updateThemeColor .accent v state).darkColors.accent = v ∧
    (updateThemeColor .accent v state).darkColors.sidebarAccent = v ∧
    (updateThemeColor .accent v state).colors.accent = v := by
  simp [updateThemeColor, updateAccent, hlight]

theorem updateThemeColor_accent_light_dark_copy_rule_witness :
    (updateThemeColor .accent ⟨9, 8, 7⟩ defaultThemeState).darkColors.accent = ⟨9, 8, 7⟩ ∧
    (updateThemeColor .accent ⟨9, 8, 7⟩ defaultThemeState).darkColors.sidebarAccent
      = ⟨9, 8, 7⟩ ∧
    (updateThemeColor .accent ⟨9, 8, 7⟩ defaultThemeState).colors.accent = ⟨9, 8, 7⟩ :=
  updateThemeColor_accent_light_dark_copy_rule ⟨9, 8, 7⟩ defaultThemeState rfl

/-- C7 counterexample: editing primary to (120, 50%, 60%) — a background
with lightness ≥ 50 — while dark mode is active produces a primary
foreground of (120, 10%, 95%): its lightness is 95, not ≤ 15, so the
claimed monotonic contrast guarantee fails on the inline dark-mode
foreground rule. -/
theorem darkPrimaryForeground_light_for_bright_primary :
    (updateThemeColor .primary ⟨120, 50, 60⟩ darkDefaultState).darkColors.primaryForeground
      = ⟨120, 10, 95⟩ ∧
    ¬ ((updateThemeColor .primary ⟨120, 50, 60⟩
        darkDefaultState).darkColors.primaryForeground.l ≤ 15) := by
  refine ⟨rfl, ?_⟩
  have hl : (updateThemeColor .primary ⟨120, 50, 60⟩
      darkDefaultState).darkColors.primaryForeground.l = 95 := rfl
  rw [hl]
  norm_num

/-- C7 amended: the Contrast Resolver (modelled from the spec) keeps the
hue and satisfies both halves of the monotonic contrast guarantee
(lightness < 45 → foreground ≥ 90; lightness ≥ 50 → foreground ≤ 15); the
foreground computed against a newly edited primary in dark mode, however,
follows the inline rule — pure white for primaries with lightness < 40 and
(h, 10%, 95%) otherwise — so it is always light (lightness ≥ 90) and the
≤ 15 half does not hold on that path. -/
theorem contrastResolver_and_dark_primary_foreground :
    (∀ c : HSL,
      (c.l < 45 → 90 ≤ (calculateContrastingColor c).l) ∧
      (50 ≤ c.l → (calculateContrastingColor c).l ≤ 15) ∧
      (calculateContrastingColor c).h = c.h) ∧
    (∀ (h s l : ℤ) (state : ThemeState), state.isDarkMode = true →
      (updateThemeColor .primary ⟨(h : ℚ), (s : ℚ), (l : ℚ)⟩ state).darkColors.primaryForeground
        = (if l < 40 then ⟨0, 0, 100⟩ else ⟨(h : ℚ), 10, 95⟩) ∧
      90 ≤ (updateThemeColor .primary
        ⟨(h : ℚ), (s : ℚ), (l : ℚ)⟩ state).darkColors.primaryForeground.l) := by
  constructor
  · intro c
    refine ⟨fun hc => ?_, fun hc => ?_, ?_⟩
    · simp only [calculateContrastingColor]
      split
      · norm_num
      · exfalso; linarith
    · simp only [calculateContrastingColor]
      split
      · exfalso; linarith
      · norm_num
    · simp only [calculateContrastingColor]
      split <;> rfl
  · intro h s l state hdark
    simp only [updateThemeColor, hdark, if_true, updatePrimaryDark, jsParseInt_intCast]
    repeat' apply And.intro
    all_goals first | trivial | (split <;> norm_num)

theorem contrastResolver_and_dark_primary_foreground_witness :
    90 ≤ (calculateContrastingColor ⟨10, 20, 30⟩).l ∧
    (calculateContrastingColor ⟨10, 20, 80⟩).l ≤ 15 ∧
    90 ≤ (updateThemeColor .primary ⟨120, 50, 60⟩
      darkDefaultState).darkColors.primaryForeground.l := by
  refine ⟨(contrastResolver_and_dark_primary_foreground.1 ⟨10, 20, 30⟩).1 (by norm_num),
    (contrastResolver_and_dark_primary_foreground.1 ⟨10, 20, 80⟩).2.1 (by norm_num), ?_⟩
  have hmain := (contrastResolver_and_dark_primary_foreground.2 120 50 60
    darkDefaultState rfl).2
  push_cast at hmain
  exact hmain

/-- C8: selecting a theme whose name matches no preset in
`predefinedThemes` is a no-op: `setCurrentTheme` returns the prior state
unchanged in every field, and no error is raised (the function is total). -/
theorem setCurrentTheme_unknown_name_noop (themeName : String) (state : ThemeState)
    (habs : ∀ t ∈ state.predefinedThemes, t.name ≠ themeName) :
    setCurrentTheme themeName state = state := by
  unfold setCurrentTheme
  have hfind : state.predefinedThemes.find? (fun t => t.name == themeName) = none := by
    apply List.find?_eq_none.mpr
    intro t ht
    simpa using habs t ht
  rw [hfind]

theorem setCurrentTheme_unknown_name_noop_witness :
    setCurrentTheme "NoSuchTheme" defaultThemeState = defaultThemeState :=
  setCurrentTheme_unknown_name_noop "NoSuchTheme" defaultThemeState (by decide)

/-- C9 (code behavior at the failing input): the default theme's border
radius is 0.5, yet the shareable-link encoder emits the radius field for
it — `encodeThemeState` omits `r` only when the radius equals 8, which is
not the default value, contradicting the encoder's stated
omit-defaults policy. -/
theorem encodeThemeState_radius_present_at_default_radius :
    (encodeThemeState defaultThemeState).r = some defaultThemeState.borderRadius ∧
    defaultThemeState.borderRadius = 1 / 2 := by
  have hne : defaultThemeState.borderRadius ≠ 8 := by norm_num [defaultThemeState]
  exact ⟨by simp [encodeThemeState, hne], by norm_num [defaultThemeState]⟩

/-- C10: `getHexColor` returns the constant "#000000" for every role key
other than the five seed roles — including real palette roles such as
destructive or chart1 — regardless of the palette contents, and for the
five seed roles returns the hex conversion of the active palette's value
(the dark palette when dark mode is active, the light palette
otherwise). -/
theorem getHexColor_seed_dispatch_and_black_default (state : ThemeState) :
    (∀ key : ThemeColorKey, key ≠ .background → key ≠ .foreground → key ≠ .primary →
        key ≠ .secondary → key ≠ .accent → getHexColor key state = "#000000") ∧
    (state.isDarkMode = true → activeColors state = state.darkColors) ∧
    (state.isDarkMode = false → activeColors state = state.colors) ∧
    getHexColor .background state = hslToHex (activeColors state).background ∧
    getHexColor .foreground state = hslToHex (activeColors state).foreground ∧
    getHexColor .primary state = hslToHex (activeColors state).primary ∧
    getHexColor .secondary state = hslToHex (activeColors state).secondary ∧
    getHexColor .accent state = hslToHex (activeColors state).accent := by
  refine ⟨?_, fun hd => by simp [activeColors, hd], fun hd => by simp [activeColors, hd],
    rfl, rfl, rfl, rfl, rfl⟩
  intro key h1 h2 h3 h4 h5
  cases key <;> first | rfl | simp_all

theorem getHexColor_seed_dispatch_and_black_default_witness :
    getHexColor .destructive defaultThemeState = "#000000" ∧
    getHexColor .chart1 darkDefaultState = "#000000" ∧
    getHexColor .primary defaultThemeState
      = hslToHex (activeColors defaultThemeState).primary :=
  ⟨(getHexColor_seed_dispatch_and_black_default defaultThemeState).1 .destructive
      (by decide) (by decide) (by decide) (by decide) (by decide),
    (getHexColor_seed_dispatch_and_black_default darkDefaultState).1 .chart1
      (by decide) (by decide) (by decide) (by decide) (by decide),
    (getHexColor_seed_dispatch_and_black_default defaultThemeState).2.2.2.2.2.1⟩

end Themecn
